import Mathlib

/-!
Verification development for the Search Analytics Node repository.

The Python sources are shallowly embedded as executable Lean definitions:

* `parse_json` models `lib/credentials.py::parse_json` (expiry validation);
* `randint_sample`, `port_search_from` and `get_free_port` model
  `lib/credentials.py::_get_free_port` (the loop also appears verbatim as
  `SearchAuthenticator.get_free_port` in `src/search/search.py`);
* `verify_key` and `authenticator_is_pro` model
  `lib/key_management.py::verify_key` and its caller
  `SearchAuthenticator.execute` in `src/search.py`;
* `terminate_tree` models `lib/process.py::terminate_tree`;
* `create_new_poll` and `create_new` model `lib/credentials.py::create_new`;
* `auth_port_deserialize` models `SearchAuthPortObject.deserialize` in
  `src/search.py`;
* `fetch_pages`, `effective_row_limit` and `upsell_warning_count` model the
  pagination loop of `SearchQuery.execute` in `src/search.py`;
* `complete_all`, `yield_in_order` and `url_inspection_rows` model the
  thread-pool dispatch of `UrlInspection.execute` in `src/search.py`.

Machine-level effects (sockets, processes, HTTP) are represented by explicit
oracles passed as arguments; randomness is represented by a stream of raw
draws; unbounded loops take explicit fuel and return `Option`.
-/

/-! ## Credential parsing (`lib/credentials.py::parse_json`) -/

/-- Serialized credential fields relevant to validation: the optional
refresh token and the expiry timestamp (POSIX seconds). -/
structure CredInfo where
  refresh_token : Option String
  expiry : Int
  deriving Repr, DecidableEq

inductive ParseCredError where
  | expired
  deriving Repr, DecidableEq

/-- Model of `parse_json`: when the serialized credentials lack a refresh
token, the expiry is compared against the current time and a difference of
at most zero raises the expired error; otherwise an empty refresh token is
inserted.  When a refresh token is present the expiry is not inspected. -/
def parse_json (info : CredInfo) (now : Int) : Except ParseCredError CredInfo :=
  if info.refresh_token.isNone then
    if info.expiry - now ≤ 0 then
      .error .expired
    else
      .ok { info with refresh_token := some "" }
  else
    .ok info

/-! ## Free-port search (`lib/credentials.py::_get_free_port`) -/

/-- Model of the Python library call randint(10000, 30000) applied to one
raw random draw: the result ranges over the closed interval from 10000 to
30000, both endpoints included. -/
def randint_sample (draw : Nat) : Nat :=
  10000 + draw % 20001

/-- Model of the `for i in range(0, 100)` body of `_get_free_port`: try the
remaining attempts starting at attempt index `i`, returning the first
sampled port the availability oracle reports free. -/
def port_search_from (draws : Nat → Nat) (is_free : Nat → Bool) :
    Nat → Nat → Option Nat
  | _, 0 => none
  | i, remaining + 1 =>
    if is_free (randint_sample (draws i)) then
      some (randint_sample (draws i))
    else
      port_search_from draws is_free (i + 1) remaining

/-- Model of `_get_free_port`: 100 attempts; `none` models raising the
no-free-port RuntimeError. -/
def get_free_port (draws : Nat → Nat) (is_free : Nat → Bool) : Option Nat :=
  port_search_from draws is_free 0 100

/-! ## License verification (`lib/key_management.py::verify_key`) -/

/-- Decoded JSON values as Python objects. -/
inductive JVal where
  | bool (b : Bool)
  | num (n : Int)
  | str (s : String)
  | null
  deriving Repr, DecidableEq

/-- Python equality of a decoded JSON value with the constant True
(in Python the number 1 compares equal to True). -/
def pyEqTrue : JVal → Bool
  | .bool b => b
  | .num n => n == 1
  | _ => false

/-- Body of the HTTP response from the license endpoint. -/
inductive LicenseBody where
  | notJson
  | json (fields : List (String × JVal))
  deriving Repr, DecidableEq

/-- Outcome of the single GET request issued by `verify_key`. -/
inductive HttpOutcome where
  | netFail
  | response (status : Nat) (body : LicenseBody)
  deriving Repr, DecidableEq

inductive VerifyError where
  | licenseServer
  | invalidKey
  | keyError
  deriving Repr, DecidableEq

def jsonLookup : List (String × JVal) → String → Option JVal
  | [], _ => none
  | (k, v) :: rest, key => if k = key then some v else jsonLookup rest key

/-- Timeout, in seconds, passed to the single GET request of `verify_key`. -/
def license_request_timeout : Nat := 10

/-- Model of `verify_key`: one GET request outcome is examined; network
failure, a non-200 status and a non-JSON body each raise the license-server
RuntimeError; a JSON body whose ok field is not Python-equal to True raises
the invalid-key RuntimeError; a missing ok field raises KeyError; otherwise
the function returns True. -/
def verify_key (key : String) (outcome : HttpOutcome) : Except VerifyError Bool :=
  let _ := key
  match outcome with
  | .netFail => .error .licenseServer
  | .response status body =>
    if status ≠ 200 then
      .error .licenseServer
    else
      match body with
      | .notJson => .error .licenseServer
      | .json fields =>
        match jsonLookup fields "ok" with
        | none => .error .keyError
        | some v => if pyEqTrue v then .ok true else .error .invalidKey

/-- Model of the Python str.strip() call: leading and trailing whitespace
characters are removed. -/
def py_strip (s : String) : String :=
  String.mk (((s.toList.dropWhile (fun c => c.isWhitespace)).reverse.dropWhile
    (fun c => c.isWhitespace)).reverse)

/-- Model of the entitlement computation in `SearchAuthenticator.execute`:
the first component counts the GET requests issued; the key is only
verified when its stripped form is non-empty. -/
def authenticator_is_pro (key : String) (outcome : HttpOutcome) :
    Nat × Except VerifyError Bool :=
  if (py_strip key).length ≠ 0 then
    (1, verify_key (py_strip key) outcome)
  else
    (0, .ok false)

/-! ## Process-tree termination (`lib/process.py::terminate_tree`) -/

inductive PsError where
  | noSuchProcess
  | accessDenied
  deriving Repr, DecidableEq

/-- Behaviour of one process of the snapshot under the two signalling
phases: which error, if any, its terminate call raises, whether it is still
alive after the grace period, and which error, if any, its kill call
raises. -/
structure ProcState where
  termRaises : Option PsError
  aliveAfterGrace : Bool
  killRaises : Option PsError
  deriving Repr, DecidableEq

def procTerminate (p : ProcState) : Except PsError Unit :=
  match p.termRaises with
  | some e => .error e
  | none => .ok ()

def procKill (p : ProcState) : Except PsError Unit :=
  match p.killRaises with
  | some e => .error e
  | none => .ok ()

/-- Model of the `try ... except psutil.NoSuchProcess: pass` wrapper. -/
def ignoreNoSuchProcess (r : Except PsError Unit) : Except PsError Unit :=
  match r with
  | .error .noSuchProcess => .ok ()
  | r => r

/-- Grace period, in seconds, passed to `psutil.wait_procs`. -/
def grace_period_seconds : Nat := 2

/-- Model of `psutil.wait_procs`: the processes still alive when the grace
period elapses. -/
def waitProcs (tree : List ProcState) (timeout : Nat) : List ProcState :=
  let _ := timeout
  tree.filter (fun p => p.aliveAfterGrace)

/-- Model of `terminate_tree`.  `rootExistsAtConstruct` stands for whether
`psutil.Process(pid)` succeeds and `rootExistsAtChildren` for whether the
`children(recursive=True)` snapshot succeeds; neither call is wrapped in a
try block, so their no-such-process errors propagate.  The terminate phase
and, after the grace period, the kill phase each wrap the per-process call
in the no-such-process guard. -/
def terminate_tree (rootExistsAtConstruct rootExistsAtChildren : Bool)
    (tree : List ProcState) : Except PsError Unit :=
  if rootExistsAtConstruct = false then
    .error .noSuchProcess
  else if rootExistsAtChildren = false then
    .error .noSuchProcess
  else
    match tree.foldlM (fun _ p => ignoreNoSuchProcess (procTerminate p)) () with
    | .error e => .error e
    | .ok _ =>
      match (waitProcs tree grace_period_seconds).foldlM
          (fun _ p => ignoreNoSuchProcess (procKill p)) () with
      | .error e => .error e
      | .ok _ => .ok ()

/-! ## Auth port deserialization (`SearchAuthPortObject.deserialize`) -/

/-- Unpickled payload values as Python objects. -/
inductive PVal where
  | str (s : String)
  | bool (b : Bool)
  | int (n : Int)
  | dict (entries : List (String × PVal))

def dictLookup : List (String × PVal) → String → Option PVal
  | [], _ => none
  | (k, v) :: rest, key => if k = key then some v else dictLookup rest key

/-- Python equality of a payload value with an integer literal. -/
def pvalEqInt (v : PVal) (n : Int) : Bool :=
  match v with
  | .int m => m == n
  | .bool b => (if b then (1 : Int) else 0) == n
  | _ => false

inductive AuthPortError where
  | keyError
  | unknownPortVersion
  deriving Repr, DecidableEq

/-- Model of `SearchAuthPortObject.deserialize`: a dict payload carries its
version in the port_version entry (a missing entry raises KeyError), any
other payload is treated as version 1.  Version 2 reads the credentials and
is_pro entries verbatim; version 1 yields the whole payload as the
credentials with entitlement False; any other version raises the
unknown-port-version RuntimeError. -/
def auth_port_deserialize (payload : PVal) : Except AuthPortError (PVal × PVal) :=
  match payload with
  | .dict entries =>
    match dictLookup entries "port_version" with
    | none => .error .keyError
    | some v =>
      if pvalEqInt v 2 then
        match dictLookup entries "credentials", dictLookup entries "is_pro" with
        | some c, some p => .ok (c, p)
        | _, _ => .error .keyError
      else if pvalEqInt v 1 then
        .ok (payload, .bool false)
      else
        .error .unknownPortVersion
  | p => .ok (p, .bool false)

/-! ## Paginated fetch (`SearchQuery.execute` loop) -/

/-- Fixed API page size used by the query loop. -/
def api_row_limit : Nat := 25000

/-- Model of the cap reconciliation at the top of `SearchQuery.execute`:
a non-entitled caller whose requested limit is 0 or above 100000 gets the
limit lowered to 100000; otherwise the requested limit stands. -/
def effective_row_limit (is_pro : Bool) (user_row_limit : Nat) : Nat :=
  if is_pro ≠ true ∧ (user_row_limit = 0 ∨ user_row_limit > 100000) then
    100000
  else
    user_row_limit

/-- Model of the `while True` fetch loop of `SearchQuery.execute` on an
endpoint oracle `pages` (rows parsed from the page at index `i`).  The
accumulated rows and the number of page requests performed are returned;
`none` models fuel exhaustion of a run that has not yet terminated. -/
def fetch_pages (pages : Nat → List α) (cap : Nat) :
    Nat → Nat → List α → Option (List α × Nat)
  | 0, _, _ => none
  | fuel + 1, i, rows =>
    if cap ≠ 0 ∧ cap ≤ (rows ++ pages i).length then
      some ((rows ++ pages i).take cap, i + 1)
    else if (pages i).length < api_row_limit then
      some (rows ++ pages i, i + 1)
    else
      fetch_pages pages cap fuel (i + 1) (rows ++ pages i)

/-- Entry point of the loop: the effective cap is computed once, the offset
and accumulator start empty. -/
def search_query_fetch (pages : Nat → List α) (is_pro : Bool)
    (user_row_limit : Nat) (fuel : Nat) : Option (List α × Nat) :=
  fetch_pages pages (effective_row_limit is_pro user_row_limit) fuel 0 []

/-- Model of the single conditional `set_warning` call after the loop in
`SearchQuery.execute`: the number of upsell notices emitted for a
non-entitled caller whose accumulator ended at exactly 100000 rows while
the original request was 0 or above 100000. -/
def upsell_warning_count (is_pro : Bool) (rows_len user_row_limit : Nat) : Nat :=
  if is_pro ≠ true ∧ rows_len = 100000 ∧ (user_row_limit = 0 ∨ user_row_limit > 100000) then
    1
  else
    0

/-! ## URL Inspection dispatch (`UrlInspection.execute`) -/

/-- Completion events of the thread pool: the workers finish in the order
given by `order` (a permutation of the input indices), each event carrying
the original index of its item together with the worker result. -/
def complete_all (items : List I) (worker : I → R) (order : List Nat) :
    List (Nat × R) :=
  order.filterMap (fun i => (items[i]?).map (fun x => (i, worker x)))

/-- Model of the executor map semantics: results are handed to the caller
in input order by looking up, for every input position, the completion
event carrying that original index. -/
def yield_in_order (completed : List (Nat × R)) (n : Nat) : List (Option R) :=
  (List.range n).map (fun k => (completed.find? (fun pr => pr.1 == k)).map Prod.snd)

/-- Model of the result loop of `UrlInspection.execute`: the k-th yielded
response is paired with the URL at position k of the input series and
turned into an output row. -/
def url_inspection_rows (items : List I) (worker : I → R)
    (buildRow : I → R → Row) (order : List Nat) : List (Option Row) :=
  List.zipWith (fun url resp => resp.map (buildRow url)) items
    (yield_in_order (complete_all items worker order) items.length)

/-! ## Authorization broker (`lib/credentials.py::create_new`) -/

inductive CreateOutcome where
  | canceled (terminatedPid : Option Nat)
  | workerFailed (exitcode : Int)
  | bundle (cred : String)
  deriving Repr, DecidableEq

inductive PollResult where
  | canceledAt (terminatedPid : Option Nat)
  | exited
  deriving Repr, DecidableEq

/-- Model of the 500 ms poll loop of `create_new` over oracles giving, for
each iteration index, whether the cancel signal is observed and whether the
worker process is still alive.  A cancel observation invokes the
process-tree supervisor on the worker pid (when one exists) and ends the
loop; a dead worker ends the loop normally. -/
def create_new_poll (cancel alive : Nat → Bool) (pid : Option Nat) :
    Nat → Nat → Option PollResult
  | 0, _ => none
  | fuel + 1, k =>
    if cancel k then
      some (.canceledAt pid)
    else if alive k = false then
      some .exited
    else
      create_new_poll cancel alive pid fuel (k + 1)

/-- Model of `create_new` after the worker is spawned: poll, then join and
inspect the exit code, and only on exit code 0 read the queued serialized
credentials.  A cancel observation raises the canceled RuntimeError after
the supervisor call, recorded as the `canceled` outcome. -/
def create_new (cancel alive : Nat → Bool) (pid : Option Nat) (exitcode : Int)
    (queued : String) (fuel : Nat) : Option CreateOutcome :=
  match create_new_poll cancel alive pid fuel 0 with
  | none => none
  | some (.canceledAt p) => some (.canceled p)
  | some .exited =>
    if exitcode ≠ 0 then
      some (.workerFailed exitcode)
    else
      some (.bundle queued)

/-! ## Helper lemmas -/

lemma fetch_pages_step_cap (pages : Nat → List α) (cap fuel i : Nat)
    (rows : List α) (h1 : cap ≠ 0 ∧ cap ≤ (rows ++ pages i).length) :
    fetch_pages pages cap (fuel + 1) i rows =
      some ((rows ++ pages i).take cap, i + 1) := by
  simp only [fetch_pages]
  rw [if_pos h1]

lemma fetch_pages_step_last (pages : Nat → List α) (cap fuel i : Nat)
    (rows : List α) (h1 : ¬(cap ≠ 0 ∧ cap ≤ (rows ++ pages i).length))
    (h2 : (pages i).length < api_row_limit) :
    fetch_pages pages cap (fuel + 1) i rows = some (rows ++ pages i, i + 1) := by
  simp only [fetch_pages]
  rw [if_neg h1, if_pos h2]

lemma fetch_pages_step_continue (pages : Nat → List α) (cap fuel i : Nat)
    (rows : List α) (h1 : ¬(cap ≠ 0 ∧ cap ≤ (rows ++ pages i).length))
    (h2 : ¬((pages i).length < api_row_limit)) :
    fetch_pages pages cap (fuel + 1) i rows =
      fetch_pages pages cap fuel (i + 1) (rows ++ pages i) := by
  simp only [fetch_pages]
  rw [if_neg h1, if_neg h2]

lemma foldlM_ignore_ok (l : List ProcState) (g : ProcState → Except PsError Unit)
    (h : ∀ p ∈ l, ignoreNoSuchProcess (g p) = .ok ()) :
    l.foldlM (fun _ p => ignoreNoSuchProcess (g p)) () = .ok () := by
  induction l with
  | nil => rfl
  | cons a t ih =>
    rw [List.foldlM_cons, h a (by simp)]
    exact ih (fun p hp => h p (by simp [hp]))

/-! ## Theorems -/

/-- Claim C4: parsing a serialized credential bundle fails with the
credentials-expired error exactly when the refresh token is absent and the
expiry minus the current time is at most zero; when a refresh token is
present the expiry is never consulted and parsing returns the credentials
unchanged, so it cannot fail with the expired error for any expiry
value. -/
theorem credentials_expiry_gate (info : CredInfo) (now : Int) :
    (parse_json info now = .error .expired ↔
      info.refresh_token = none ∧ info.expiry - now ≤ 0) ∧
    (∀ r, info.refresh_token = some r → parse_json info now = .ok info) := by
  unfold parse_json
  rcases h : info.refresh_token with _ | r
  · by_cases hle : info.expiry - now ≤ 0 <;> simp [h, hle]
  · simp [h]

/-- Witness for C4: a bundle with a refresh token and an expiry one second
in the past parses successfully; a bundle without a refresh token and the
same expiry fails with the expired error, while a fresh expiry
succeeds. -/
theorem credentials_expiry_gate_witness :
    parse_json ⟨some "tok", 4⟩ 5 = .ok ⟨some "tok", 4⟩ ∧
    parse_json ⟨none, 4⟩ 5 = .error .expired ∧
    parse_json ⟨none, 3605⟩ 5 ≠ .error .expired := by
  refine ⟨(credentials_expiry_gate ⟨some "tok", 4⟩ 5).2 "tok" rfl, ?_, ?_⟩
  · exact (credentials_expiry_gate ⟨none, 4⟩ 5).1.mpr ⟨rfl, by decide⟩
  · intro hcontra
    have := (credentials_expiry_gate ⟨none, 3605⟩ 5).1.mp hcontra
    simpa using this.2

/-- Claim C8: when every process of the snapshot either accepts its signal
or is already gone (raises only the no-such-process error), neither the
graceful terminate phase nor the forceful kill phase after the grace
period lets an error escape: terminate_tree returns cleanly. -/
theorem terminate_tree_ignores_gone (tree : List ProcState)
    (h : ∀ p ∈ tree,
      (p.termRaises = none ∨ p.termRaises = some .noSuchProcess) ∧
      (p.killRaises = none ∨ p.killRaises = some .noSuchProcess)) :
    terminate_tree true true tree = .ok () := by
  have hterm : ∀ p ∈ tree, ignoreNoSuchProcess (procTerminate p) = .ok () := by
    intro p hp
    rcases (h p hp).1 with h1 | h1 <;> simp [procTerminate, ignoreNoSuchProcess, h1]
  have hkill : ∀ p ∈ waitProcs tree grace_period_seconds,
      ignoreNoSuchProcess (procKill p) = .ok () := by
    intro p hp
    have hp2 : p ∈ tree := (List.mem_filter.mp hp).1
    rcases (h p hp2).2 with h1 | h1 <;> simp [procKill, ignoreNoSuchProcess, h1]
  unfold terminate_tree
  rw [foldlM_ignore_ok tree procTerminate hterm,
    foldlM_ignore_ok (waitProcs tree grace_period_seconds) procKill hkill]
  rfl

/-- Witness for C8: a snapshot with one member already gone at both phases
and one member that exits within the grace period is reaped without an
error. -/
theorem terminate_tree_ignores_gone_witness :
    terminate_tree true true
      [⟨some .noSuchProcess, true, some .noSuchProcess⟩, ⟨none, false, none⟩] =
      .ok () :=
  terminate_tree_ignores_gone _ (by decide)

/-- Claim C10: when the root pid no longer exists at call time, the
unguarded construction of the root process handle (and likewise the
children snapshot) raises the no-such-process error, which escapes
terminate_tree regardless of the snapshot contents. -/
theorem terminate_tree_unguarded_root (tree : List ProcState) :
    terminate_tree false true tree = .error .noSuchProcess ∧
    terminate_tree true false tree = .error .noSuchProcess :=
  ⟨rfl, rfl⟩

/-- Claim C9: a version-2 dict envelope yields its stored credentials and
entitlement verbatim; a bare (non-dict) legacy payload yields itself as the
credentials with entitlement False; a dict envelope whose version compares
equal to neither 1 nor 2 fails with the unknown-port-version error. -/
theorem auth_port_versions :
    (∀ c p : PVal,
      auth_port_deserialize
        (.dict [("port_version", .int 2), ("credentials", c), ("is_pro", p)]) =
        .ok (c, p)) ∧
    (∀ s, auth_port_deserialize (.str s) = .ok (.str s, .bool false)) ∧
    (∀ v : PVal, pvalEqInt v 1 = false → pvalEqInt v 2 = false →
      auth_port_deserialize (.dict [("port_version", v)]) =
        .error .unknownPortVersion) := by
  refine ⟨fun c p => rfl, fun s => rfl, fun v h1 h2 => ?_⟩
  simp [auth_port_deserialize, dictLookup, h1, h2]

/-- Witness for C9: a dict envelope carrying version 3 fails with the
unknown-port-version error. -/
theorem auth_port_versions_witness :
    auth_port_deserialize (.dict [("port_version", .int 3)]) =
      .error .unknownPortVersion :=
  auth_port_versions.2.2 (.int 3) rfl rfl

/-- Claim C7: a blank key yields entitlement False with no GET request;
a non-blank key issues exactly one GET request with a 10-second timeout;
network failure, a non-200 status and a non-JSON body each fail with the
license-server error; a present ok field whose value is not True fails with
the invalid-key error; a True ok field returns True; and verify_key never
returns False on any outcome. -/
theorem license_gate_contract :
    (∀ key outcome, (py_strip key).length = 0 →
      authenticator_is_pro key outcome = (0, .ok false)) ∧
    (∀ key outcome, (py_strip key).length ≠ 0 →
      authenticator_is_pro key outcome = (1, verify_key (py_strip key) outcome)) ∧
    license_request_timeout = 10 ∧
    (∀ key, verify_key key .netFail = .error .licenseServer) ∧
    (∀ key status body, status ≠ 200 →
      verify_key key (.response status body) = .error .licenseServer) ∧
    (∀ key, verify_key key (.response 200 .notJson) = .error .licenseServer) ∧
    (∀ key fields v, jsonLookup fields "ok" = some v → pyEqTrue v = false →
      verify_key key (.response 200 (.json fields)) = .error .invalidKey) ∧
    (∀ key fields, jsonLookup fields "ok" = some (.bool true) →
      verify_key key (.response 200 (.json fields)) = .ok true) ∧
    (∀ key outcome, verify_key key outcome ≠ .ok false) := by
  refine ⟨fun key outcome h => ?_, fun key outcome h => ?_, rfl,
    fun key => rfl, fun key status body h => ?_, fun key => ?_,
    fun key fields v hv ht => ?_, fun key fields hv => ?_,
    fun key outcome => ?_⟩
  · simp [authenticator_is_pro, h]
  · simp [authenticator_is_pro, h]
  · simp [verify_key, h]
  · simp [verify_key]
  · simp [verify_key, hv, ht]
  · simp [verify_key, hv, pyEqTrue]
  · unfold verify_key
    cases outcome with
    | netFail => simp
    | response status body =>
      by_cases hs : status ≠ 200
      · simp [hs]
      · cases body with
        | notJson => simp [hs]
        | json fields =>
          cases hv : jsonLookup fields "ok" with
          | none => simp [hs, hv]
          | some v => by_cases ht : pyEqTrue v <;> simp [hs, hv, ht]

/-- Witness for C7: a body whose ok field is False fails with the
invalid-key error, a non-200 status fails with the license-server error,
and a blank key yields entitlement False with zero GET requests. -/
theorem license_gate_contract_witness :
    verify_key "k" (.response 200 (.json [("ok", .bool false)])) =
      .error .invalidKey ∧
    verify_key "k" (.response 503 .notJson) = .error .licenseServer ∧
    authenticator_is_pro "  " .netFail = (0, .ok false) :=
  ⟨license_gate_contract.2.2.2.2.2.2.1 "k" [("ok", .bool false)] (.bool false)
      rfl rfl,
    license_gate_contract.2.2.2.2.1 "k" 503 .notJson (by decide),
    license_gate_contract.1 "  " .netFail (by decide)⟩

/-- Claim C5 counterexample: the claimed sampling range is the half-open
interval from 10000 to 30000 with 30000 excluded, but the library call
randint(10000, 30000) includes the upper endpoint: the raw draw 20000 is
mapped to port 30000, and a run of get_free_port in which that draw comes
first returns port 30000, which does not lie below 30000. -/
theorem free_port_sample_at_upper_bound :
    randint_sample 20000 = 30000 ∧
    get_free_port (fun _ => 20000) (fun _ => true) = some 30000 ∧
    ¬(30000 < 30000) :=
  ⟨rfl, rfl, by decide⟩

/-- Claim C5 (amended to the closed interval): every sampled port lies in
the closed range from 10000 to 30000, both endpoints included; the search
makes at most 100 attempts, failing with the no-free-port error exactly
when all 100 sampled ports are occupied; and a returned port is the first
free port among the samples.  Totality of get_free_port shows the search
never loops forever. -/
theorem free_port_search_bounded (draws : Nat → Nat) (is_free : Nat → Bool) :
    (∀ i, 10000 ≤ randint_sample (draws i) ∧ randint_sample (draws i) ≤ 30000) ∧
    (get_free_port draws is_free = none ↔
      ∀ i, i < 100 → is_free (randint_sample (draws i)) = false) ∧
    (∀ p, get_free_port draws is_free = some p →
      ∃ i, i < 100 ∧ p = randint_sample (draws i) ∧ is_free p = true ∧
        ∀ j, j < i → is_free (randint_sample (draws j)) = false) := by
  have hnone : ∀ (remaining i : Nat),
      (port_search_from draws is_free i remaining = none ↔
        ∀ j, i ≤ j → j < i + remaining →
          is_free (randint_sample (draws j)) = false) := by
    intro remaining
    induction remaining with
    | zero =>
      intro i
      exact ⟨fun _ j h1 h2 => absurd h2 (by omega), fun _ => rfl⟩
    | succ r ih =>
      intro i
      simp only [port_search_from]
      by_cases hf : is_free (randint_sample (draws i))
      · rw [if_pos hf]
        constructor
        · intro hcontra
          exact absurd hcontra (by simp)
        · intro hall
          have := hall i (by omega) (by omega)
          rw [hf] at this
          exact absurd this (by simp)
      · rw [if_neg hf, ih (i + 1)]
        constructor
        · intro hall j h1 h2
          by_cases hj : j = i
          · subst hj
            exact Bool.eq_false_iff.mpr hf
          · exact hall j (by omega) (by omega)
        · intro hall j h1 h2
          exact hall j (by omega) (by omega)
  have hsome : ∀ (remaining i p : Nat),
      port_search_from draws is_free i remaining = some p →
      ∃ j, i ≤ j ∧ j < i + remaining ∧ p = randint_sample (draws j) ∧
        is_free p = true ∧
        ∀ k, i ≤ k → k < j → is_free (randint_sample (draws k)) = false := by
    intro remaining
    induction remaining with
    | zero =>
      intro i p h
      exact absurd h (by simp [port_search_from])
    | succ r ih =>
      intro i p h
      simp only [port_search_from] at h
      by_cases hf : is_free (randint_sample (draws i))
      · rw [if_pos hf] at h
        refine ⟨i, by omega, by omega, (Option.some.inj h).symm, ?_, ?_⟩
        · rw [Option.some.inj h] at hf
          exact hf
        · intro k h1 h2
          omega
      · rw [if_neg hf] at h
        obtain ⟨j, hj1, hj2, hj3, hj4, hj5⟩ := ih (i + 1) p h
        refine ⟨j, by omega, by omega, hj3, hj4, ?_⟩
        intro k h1 h2
        by_cases hk : k = i
        · subst hk
          exact Bool.eq_false_iff.mpr hf
        · exact hj5 k (by omega) h2
  refine ⟨fun i => ?_, ?_, fun p hp => ?_⟩
  · unfold randint_sample
    have := Nat.mod_lt (draws i) (show 0 < 20001 by omega)
    omega
  · unfold get_free_port
    rw [hnone 100 0]
    constructor
    · intro hall j hj
      exact hall j (by omega) (by omega)
    · intro hall j h1 h2
      exact hall j (by omega)
  · obtain ⟨j, hj1, hj2, hj3, hj4, hj5⟩ := hsome 100 0 p hp
    exact ⟨j, by omega, hj3, hj4, fun k hk => hj5 k (by omega) hk⟩

/-- Witness for C5: with an availability oracle reporting every port
occupied, the search returns the no-free-port failure after its 100
attempts. -/
theorem free_port_search_bounded_witness :
    get_free_port (fun i => i) (fun _ => false) = none :=
  (free_port_search_bounded (fun i => i) (fun _ => false)).2.1.mpr
    (fun _ _ => rfl)

/-- Claim C6: if the cancel signal is observed at a poll iteration reached
while the worker is still alive, create_new invokes the process-tree
supervisor on the worker pid and fails with the canceled error, and such a
run never returns a credential bundle. -/
theorem create_new_cancel_reaps (cancel alive : Nat → Bool) (p : Nat)
    (exitcode : Int) (queued : String) (fuel k : Nat)
    (hk : k < fuel) (hc : cancel k = true)
    (hbefore : ∀ j, j < k → cancel j = false ∧ alive j = true) :
    create_new cancel alive (some p) exitcode queued fuel =
      some (.canceled (some p)) ∧
    ∀ c, create_new cancel alive (some p) exitcode queued fuel ≠
      some (.bundle c) := by
  have hpoll : ∀ (f start : Nat), start ≤ k → k < start + f →
      (∀ j, start ≤ j → j < k → cancel j = false ∧ alive j = true) →
      create_new_poll cancel alive (some p) f start =
        some (.canceledAt (some p)) := by
    intro f
    induction f with
    | zero =>
      intro start h1 h2
      omega
    | succ n ih =>
      intro start h1 h2 hb
      simp only [create_new_poll]
      by_cases hs : start = k
      · subst hs
        rw [if_pos hc]
      · have h3 := hb start (by omega) (by omega)
        rw [if_neg (by simp [h3.1]), if_neg (by simp [h3.2])]
        exact ih (start + 1) (by omega) (by omega)
          (fun j hj1 hj2 => hb j (by omega) hj2)
  have hdone : create_new cancel alive (some p) exitcode queued fuel =
      some (.canceled (some p)) := by
    unfold create_new
    rw [hpoll fuel 0 (by omega) (by omega) (fun j hj1 hj2 => hbefore j hj2)]
  exact ⟨hdone, fun c hcontra => by rw [hdone] at hcontra; exact absurd hcontra (by simp)⟩

/-- Witness for C6: cancellation observed at the second poll iteration of a
live worker with pid 77 terminates the tree rooted at 77 and yields the
canceled outcome, not a bundle. -/
theorem create_new_cancel_reaps_witness :
    create_new (fun k => k == 1) (fun _ => true) (some 77) 0 "cred" 3 =
      some (.canceled (some 77)) :=
  (create_new_cancel_reaps (fun k => k == 1) (fun _ => true) 77 0 "cred" 3 1
    (by decide) rfl (by decide)).1

/-- Claim C1: a non-entitled caller requesting 0 rows or more than 100000
rows gets an effective cap of 100000, so on an endpoint whose every page
carries exactly 25000 rows the fetch stops after 4 page requests with
exactly 100000 rows and emits the upsell notice exactly once; an entitled
caller always keeps the requested cap verbatim, 0 meaning unlimited. -/
theorem query_row_cap (pages : Nat → List α)
    (hfull : ∀ i, (pages i).length = api_row_limit)
    (r : Nat) (hr : r = 0 ∨ r > 100000) :
    effective_row_limit false r = 100000 ∧
    (search_query_fetch pages false r 4).map (fun x => (x.1.length, x.2)) =
      some (100000, 4) ∧
    upsell_warning_count false 100000 r = 1 ∧
    (∀ q, effective_row_limit true q = q) := by
  have hcap : effective_row_limit false r = 100000 := by
    unfold effective_row_limit
    rw [if_pos ⟨by simp, hr⟩]
  refine ⟨hcap, ?_, ?_, fun q => by simp [effective_row_limit]⟩
  · have hnc : ∀ (rows : List α) (j : Nat), rows.length + 25000 < 100000 →
        ¬((100000 : Nat) ≠ 0 ∧ 100000 ≤ (rows ++ pages j).length) := by
      intro rows j hsmall
      rw [List.length_append, hfull j, api_row_limit]
      omega
    have hshort : ∀ j, ¬((pages j).length < api_row_limit) := by
      intro j
      rw [hfull j]
      omega
    have e1 : fetch_pages pages 100000 4 0 ([] : List α) =
        fetch_pages pages 100000 3 1 ([] ++ pages 0) :=
      fetch_pages_step_continue pages 100000 3 0 []
        (hnc [] 0 (by simp)) (hshort 0)
    have e2 : fetch_pages pages 100000 3 1 ([] ++ pages 0) =
        fetch_pages pages 100000 2 2 (([] ++ pages 0) ++ pages 1) :=
      fetch_pages_step_continue pages 100000 2 1 ([] ++ pages 0)
        (hnc ([] ++ pages 0) 1
          (by simp only [List.length_append, List.length_nil, hfull,
            api_row_limit]; omega))
        (hshort 1)
    have e3 : fetch_pages pages 100000 2 2 (([] ++ pages 0) ++ pages 1) =
        fetch_pages pages 100000 1 3 ((([] ++ pages 0) ++ pages 1) ++ pages 2) :=
      fetch_pages_step_continue pages 100000 1 2 (([] ++ pages 0) ++ pages 1)
        (hnc (([] ++ pages 0) ++ pages 1) 2
          (by simp only [List.length_append, List.length_nil, hfull,
            api_row_limit]; omega))
        (hshort 2)
    have e4 : fetch_pages pages 100000 1 3 ((([] ++ pages 0) ++ pages 1) ++ pages 2) =
        some ((((([] ++ pages 0) ++ pages 1) ++ pages 2) ++ pages 3).take 100000, 4) :=
      fetch_pages_step_cap pages 100000 0 3 ((([] ++ pages 0) ++ pages 1) ++ pages 2)
        ⟨by omega,
          by simp only [List.length_append, List.length_nil, hfull,
            api_row_limit]; omega⟩
    unfold search_query_fetch
    rw [hcap, e1, e2, e3, e4]
    simp only [Option.map_some', List.length_take, List.length_append,
      List.length_nil, hfull, api_row_limit]
    norm_num
  · unfold upsell_warning_count
    rw [if_pos ⟨by simp, rfl, hr⟩]

/-- Witness for C1: an endpoint of constant full pages with a requested
cap of 0 and a non-entitled caller yields exactly 100000 rows after 4 page
requests. -/
theorem query_row_cap_witness :
    (search_query_fetch (fun _ => List.replicate 25000 (0 : Nat)) false 0 4).map
      (fun x => (x.1.length, x.2)) = some (100000, 4) :=
  (query_row_cap (fun _ => List.replicate 25000 0)
    (fun _ => by rw [List.length_replicate]; rfl) 0 (Or.inl rfl)).2.1

/-- Claim C2: after each page the loop first checks the cap (truncating the
accumulator to exactly the cap and stopping), then checks for a short page
(stopping without truncation), and otherwise continues.  On pages of sizes
25000, 25000 and 12000 with cap 0 the fetch makes exactly 3 page requests
and returns 62000 rows; with cap 60000 the same pages make exactly 3 page
requests and return 60000 rows, showing the cap check precedes the
short-page check. -/
theorem query_loop_termination (pages : Nat → List α)
    (hp0 : (pages 0).length = 25000) (hp1 : (pages 1).length = 25000)
    (hp2 : (pages 2).length = 12000) :
    (fetch_pages pages 0 3 0 []).map (fun x => (x.1.length, x.2)) =
      some (62000, 3) ∧
    (fetch_pages pages 60000 3 0 []).map (fun x => (x.1.length, x.2)) =
      some (60000, 3) := by
  constructor
  · have e1 : fetch_pages pages 0 3 0 ([] : List α) =
        fetch_pages pages 0 2 1 ([] ++ pages 0) :=
      fetch_pages_step_continue pages 0 2 0 []
        (by simp) (by rw [hp0]; simp [api_row_limit])
    have e2 : fetch_pages pages 0 2 1 ([] ++ pages 0) =
        fetch_pages pages 0 1 2 (([] ++ pages 0) ++ pages 1) :=
      fetch_pages_step_continue pages 0 1 1 ([] ++ pages 0)
        (by simp) (by rw [hp1]; simp [api_row_limit])
    have e3 : fetch_pages pages 0 1 2 (([] ++ pages 0) ++ pages 1) =
        some ((([] ++ pages 0) ++ pages 1) ++ pages 2, 3) :=
      fetch_pages_step_last pages 0 0 2 (([] ++ pages 0) ++ pages 1)
        (by simp) (by rw [hp2]; simp [api_row_limit])
    rw [e1, e2, e3]
    simp only [Option.map_some', List.length_append, List.length_nil, hp0, hp1, hp2]
  · have e1 : fetch_pages pages 60000 3 0 ([] : List α) =
        fetch_pages pages 60000 2 1 ([] ++ pages 0) :=
      fetch_pages_step_continue pages 60000 2 0 []
        (by simp only [List.length_append, List.length_nil, hp0]; omega)
        (by rw [hp0]; simp [api_row_limit])
    have e2 : fetch_pages pages 60000 2 1 ([] ++ pages 0) =
        fetch_pages pages 60000 1 2 (([] ++ pages 0) ++ pages 1) :=
      fetch_pages_step_continue pages 60000 1 1 ([] ++ pages 0)
        (by simp only [List.length_append, List.length_nil, hp0, hp1]; omega)
        (by rw [hp1]; simp [api_row_limit])
    have e3 : fetch_pages pages 60000 1 2 (([] ++ pages 0) ++ pages 1) =
        some (((([] ++ pages 0) ++ pages 1) ++ pages 2).take 60000, 3) :=
      fetch_pages_step_cap pages 60000 0 2 (([] ++ pages 0) ++ pages 1)
        ⟨by omega,
          by simp only [List.length_append, List.length_nil, hp0, hp1, hp2]; omega⟩
    rw [e1, e2, e3]
    simp only [Option.map_some', List.length_take, List.length_append,
      List.length_nil, hp0, hp1, hp2]
    norm_num

/-- Witness for C2: concrete pages of sizes 25000, 25000 and 12000 with cap
0 yield 62000 rows in 3 page requests. -/
theorem query_loop_termination_witness :
    (fetch_pages (fun i => List.replicate (if i = 2 then 12000 else 25000) (0 : Nat))
      0 3 0 []).map (fun x => (x.1.length, x.2)) = some (62000, 3) :=
  (query_loop_termination
    (fun i => List.replicate (if i = 2 then 12000 else 25000) (0 : Nat))
    (by norm_num) (by norm_num) (by norm_num)).1

/-- Claim C3: whatever the order in which the per-item workers complete,
row i of the URL Inspection dispatch output is built from input item i and
the worker result for input item i. -/
theorem url_inspection_order (items : List I) (worker : I → R)
    (buildRow : I → R → Row) (order : List Nat)
    (hperm : order.Perm (List.range items.length))
    (i : Nat) (hi : i < items.length) :
    (url_inspection_rows items worker buildRow order)[i]? =
      some (some (buildRow items[i] (worker items[i]))) := by
  have hfind : (complete_all items worker order).find? (fun pr => pr.1 == i) =
      some (i, worker items[i]) := by
    have hmemi : i ∈ order := hperm.mem_iff.mpr (List.mem_range.mpr hi)
    have hmem : ((i, worker items[i]) : Nat × R) ∈ complete_all items worker order := by
      unfold complete_all
      rw [List.mem_filterMap]
      refine ⟨i, hmemi, ?_⟩
      rw [List.getElem?_eq_getElem hi]
      rfl
    have hsome : ((complete_all items worker order).find?
        (fun pr => pr.1 == i)).isSome := by
      rw [List.find?_isSome]
      exact ⟨_, hmem, by simp⟩
    obtain ⟨x, hx⟩ := Option.isSome_iff_exists.mp hsome
    have hpred := List.find?_some hx
    have hxmem := List.mem_of_find?_eq_some hx
    unfold complete_all at hxmem
    rw [List.mem_filterMap] at hxmem
    obtain ⟨a, hamem, ha⟩ := hxmem
    have haorder : a < items.length := List.mem_range.mp (hperm.mem_iff.mp hamem)
    rw [List.getElem?_eq_getElem haorder] at ha
    have hax : x = (a, worker items[a]) := (Option.some.inj ha).symm
    have hai : a = i := by
      have hx1 : x.1 = i := by simpa using hpred
      rw [hax] at hx1
      exact hx1
    subst hai
    rw [hx, hax]
  unfold url_inspection_rows yield_in_order
  rw [List.getElem?_zipWith, List.getElem?_eq_getElem hi, List.getElem?_map,
    List.getElem?_range hi]
  simp only [Option.map_some', hfind]

set_option maxRecDepth 8000 in
/-- Witness for C3: for the items 10, 20 and 30 completing in the order
third, first, second, row 1 of the output is built from item 1 and its own
worker result. -/
theorem url_inspection_order_witness :
    (url_inspection_rows [10, 20, 30] (fun n => n + 1)
      (fun u r => u * 1000 + r) [2, 0, 1])[1]? = some (some 20021) :=
  url_inspection_order [10, 20, 30] (fun n => n + 1) (fun u r => u * 1000 + r)
    [2, 0, 1] (by decide) 1 (by decide)
